import Mathlib

/-!
Verification of the interactive command-approval and agent-session controller
implemented in src/codex-cli/src/components/chat/terminal-chat.tsx.

The component is embedded shallowly.  React state becomes explicit record
state; each useEffect body or callback becomes a function from state (plus the
values of asynchronous oracles such as human confirmation answers and
text-generation outcomes) to new state together with a log of the calls made
to external collaborators.  React effect semantics are modelled faithfully:
when the dependency list of an effect changes, the cleanup returned by the
previous run of that effect executes before the new run of the body, and a run
of the body that returned early registered no cleanup for the next change.
-/

namespace Codex

/-- Role tag of a transcript entry (CoreMessage role in the source). -/
inductive Role
  | user
  | assistant
  | system
  | tool
  deriving DecidableEq

/-- Transcript entry.  The source stores CoreMessage values, sometimes with a
synthetic string id and, for the diff notice, a type field; content is
embedded as a plain string. -/
structure ChatItem where
  id : Option String := Option.none
  type : Option String := Option.none
  role : Role
  content : String
  deriving DecidableEq

/-- Approval policy, a three-valued string union in the source
(the keys of colorsByPolicy: suggest, auto-edit, full-auto). -/
inductive ApprovalPolicy
  | suggest
  | autoEdit
  | fullAuto
  deriving DecidableEq

/-- Rendering of an approval policy back to its source string value. -/
def ApprovalPolicy.toStr : ApprovalPolicy → String
  | ApprovalPolicy.suggest => "suggest"
  | ApprovalPolicy.autoEdit => "auto-edit"
  | ApprovalPolicy.fullAuto => "full-auto"

/-- Overlay mode, the seven-valued union OverlayModeType of the source. -/
inductive OverlayModeType
  | none
  | history
  | model
  | approval
  | help
  | diff
  | mcp
  deriving DecidableEq

/-- Outcome of the external generateText call inside
generateCommandExplanation: either generated text, a thrown Error object
carrying a message and an optional numeric status, or a thrown value that is
not an Error object. -/
inductive GenTextOutcome
  | ok (text : String)
  | errObj (message : String) (status : Option Int)
  | errOther
  deriving DecidableEq

/-- Embedding of generateCommandExplanation (terminal-chat.tsx lines 75-126).
The await of generateText is replaced by its outcome, passed as an oracle
argument.  On success the text is returned, with a fallback string when the
text is empty; on failure the catch block classifies the cause: status 401,
status 429 and status at least 500 produce fixed messages, any other Error
produces a generic message embedding the error text, and a non-Error throw
produces a fixed generic message.  The function is total, so it always
resolves and never propagates a fault. -/
def generateCommandExplanation (command : List String) (model : String)
    (outcome : GenTextOutcome) : String :=
  match outcome with
  | GenTextOutcome.ok text =>
      if text = "" then "Unable to generate explanation." else text
  | GenTextOutcome.errOther => "Unable to generate explanation due to an error."
  | GenTextOutcome.errObj message status =>
      match status with
      | Option.some s =>
          if s = 401 then
            "Unable to generate explanation: API key is invalid or expired."
          else if s = 429 then
            "Unable to generate explanation: Rate limit exceeded. Please try again later."
          else if s ≥ 500 then
            "Unable to generate explanation: Service is currently unavailable. Please try again later."
          else
            "Unable to generate explanation: " ++ message
      | Option.none => "Unable to generate explanation: " ++ message

/-- Modelled from the spec: the ReviewDecision enum lives in the agent review
module outside src.  The spec lists the decisions approve-once,
approve-for-session, deny, deny-with-custom-message and request-explanation;
the source inspects only the request-explanation value
(ReviewDecision.EXPLAIN). -/
inductive ReviewDecision
  | approveOnce
  | approveForSession
  | deny
  | denyWithCustomMessage
  | explain
  deriving DecidableEq

/-- Result the Confirmation Broker resolves an ask with: a decision plus an
optional custom deny message. -/
structure ConfirmationResult where
  decision : ReviewDecision
  customDenyMessage : Option String
  deriving DecidableEq

/-- Structured patch payload forwarded opaquely by the bridge. -/
abbrev ApplyPatchCommand := String

/-- Value returned to the engine by getCommandConfirmation. -/
structure CommandConfirmation where
  review : ReviewDecision
  customDenyMessage : Option String
  applyPatch : Option ApplyPatchCommand
  explanation : Option String
  deriving DecidableEq

/-- Modelled from the spec: formatCommandForDisplay lives in format-command
outside src; it renders an argv vector as one display string.  The embedding
joins the words with spaces; no claim depends on the exact rendering. -/
def formatCommandForDisplay (command : List String) : String :=
  String.intercalate " " command

/-- Record of one requestConfirmation call: the displayed command and the
optional explanation attached to the prompt (the props of the
TerminalChatToolCallCommand element built at each call site). -/
structure AskRecord where
  commandForDisplay : String
  explanation : Option String
  deriving DecidableEq

/-- Embedding of the getCommandConfirmation callback handed to the engine
(terminal-chat.tsx lines 266-301).  The two awaited requestConfirmation calls
are replaced by oracle answers, and the awaited explanation generation by its
GenTextOutcome oracle.  Returns the CommandConfirmation passed back to the
engine, the list of confirmation prompts that were requested, and the number
of explanation calls made. -/
def getCommandConfirmation (command : List String) (model : String)
    (applyPatch : Option ApplyPatchCommand)
    (answer1 answer2 : ConfirmationResult) (outcome : GenTextOutcome) :
    CommandConfirmation × List AskRecord × Nat :=
  let commandForDisplay := formatCommandForDisplay command
  let review := answer1.decision
  let customDenyMessage := answer1.customDenyMessage
  if review = ReviewDecision.explain then
    let explanation := generateCommandExplanation command model outcome
    ({ review := answer2.decision,
       customDenyMessage := answer2.customDenyMessage,
       applyPatch := applyPatch,
       explanation := Option.some explanation },
     [{ commandForDisplay := commandForDisplay, explanation := Option.none },
      { commandForDisplay := commandForDisplay, explanation := Option.some explanation }],
     1)
  else
    ({ review := review,
       customDenyMessage := customDenyMessage,
       applyPatch := applyPatch,
       explanation := Option.none },
     [{ commandForDisplay := commandForDisplay, explanation := Option.none }],
     0)

/-- Embedding of the onItem engine-output callback (lines 257-264): the new
item is appended to the transcript (the accompanying saveRollout call is an
external fire-and-forget collaborator and carries no state). -/
def onItem (items : List ChatItem) (item : ChatItem) : List ChatItem :=
  items ++ [item]

/-- System notice appended by interruptAgent (lines 506-514).  Date.now is
passed in as the clock value now. -/
def interruptItem (now : Nat) : ChatItem :=
  { id := Option.some ("interrupt-" ++ toString now),
    role := Role.system,
    content := "⏹️  Execution interrupted by user. You can continue typing." }

/-- System notice appended by the ModelOverlay onSelect handler
(lines 549-556). -/
def switchModelItem (newModel : String) (now : Nat) : ChatItem :=
  { id := Option.some ("switch-model-" ++ toString now),
    role := Role.system,
    content := "Switched model to " ++ newModel }

/-- System notice appended by the ApprovalModeOverlay onSelect handler
(lines 581-588). -/
def switchApprovalItem (newMode : ApprovalPolicy) (now : Nat) : ChatItem :=
  { id := Option.some ("switch-approval-" ++ toString now),
    role := Role.system,
    content := "Switched approval mode to " ++ newMode.toStr }

/-- System item appended by openDiffOverlay (lines 472-488), holding the diff
when inside a git repository and a fixed notice otherwise. -/
def diffItem (isGitRepo : Bool) (diff : String) (now : Nat) : ChatItem :=
  { id := Option.some ("diff-" ++ toString now),
    type := Option.some "message",
    role := Role.system,
    content := if isGitRepo then diff else "`/diff` — _not inside a git repository_" }

/-- System item appended by handleCompact when summarization fails
(lines 163-170). -/
def compactErrorItem (err : String) (now : Nat) : ChatItem :=
  { id := Option.some ("compact-error-" ++ toString now),
    role := Role.system,
    content := "Failed to compact context: " ++ err }

/-- Assistant item that handleCompact installs as the entire new transcript
when summarization succeeds (lines 156-161). -/
def compactSummaryItem (summary : String) : ChatItem :=
  { role := Role.assistant, content := summary }

/-- Operations of this component that change the transcript.  The compaction
operation carries the oracle outcome of the awaited generateCompactSummary
call: ok with the summary text, or error with the stringified exception. -/
inductive TranscriptOp
  | engineOutput (item : ChatItem)
  | userInput (inputs : List ChatItem)
  | interruptNotice (now : Nat)
  | modelSwitchNotice (newModel : String) (now : Nat)
  | approvalSwitchNotice (newMode : ApprovalPolicy) (now : Nat)
  | diffDisplay (isGitRepo : Bool) (diff : String) (now : Nat)
  | compactResult (result : Except String String) (now : Nat)

/-- Effect of each transcript-changing operation on the item list, read off
the corresponding setItems call in the source.  Every operation appends,
except handleCompact on success, which replaces the whole transcript with a
single assistant summary item. -/
def applyTranscriptOp (items : List ChatItem) : TranscriptOp → List ChatItem
  | TranscriptOp.engineOutput item => onItem items item
  | TranscriptOp.userInput inputs => items ++ inputs
  | TranscriptOp.interruptNotice now => items ++ [interruptItem now]
  | TranscriptOp.modelSwitchNotice m now => items ++ [switchModelItem m now]
  | TranscriptOp.approvalSwitchNotice p now => items ++ [switchApprovalItem p now]
  | TranscriptOp.diffDisplay repo diff now => items ++ [diffItem repo diff now]
  | TranscriptOp.compactResult (Except.error err) now => items ++ [compactErrorItem err now]
  | TranscriptOp.compactResult (Except.ok summary) _ => [compactSummaryItem summary]

/-- State observed by the thinking-timer effect (lines 323-343): the loading
flag, whether a confirmation prompt is displayed, and the counter value. -/
structure TimerState where
  loading : Bool
  confirmationPrompt : Bool
  thinkingSeconds : Nat
  deriving DecidableEq

/-- Events driving the timer: a render in which the flag pair changed (the
effect re-runs, clearing the previous interval via its cleanup and resetting
the counter), or one elapsed second (the interval callback, which exists only
while loading holds and no confirmation prompt is shown). -/
inductive TimerEvent
  | setFlags (loading confirmationPrompt : Bool)
  | secondElapsed
  deriving DecidableEq

/-- Transition of the timer state machine.  A setFlags event with unchanged
flags is a render without a dependency change, so the effect does not re-run;
with changed flags, both branches of the effect body reset the counter to
zero (the busy branch then arms a fresh interval).  A secondElapsed event
increments the counter exactly when the state is busy, because the interval
is armed only in the busy branch and cleared by the cleanup on every
dependency change. -/
def timerStep (s : TimerState) : TimerEvent → TimerState
  | TimerEvent.setFlags l p =>
      if l = s.loading ∧ p = s.confirmationPrompt then s
      else { loading := l, confirmationPrompt := p, thinkingSeconds := 0 }
  | TimerEvent.secondElapsed =>
      if s.loading = true ∧ s.confirmationPrompt = false then
        { s with thinkingSeconds := s.thinkingSeconds + 1 }
      else s

/-- Initial timer state: not loading, no confirmation, counter zero. -/
def timerInit : TimerState :=
  { loading := false, confirmationPrompt := false, thinkingSeconds := 0 }

/-- Timer state reached after a sequence of events from the initial state. -/
def timerRun (evs : List TimerEvent) : TimerState :=
  evs.foldl timerStep timerInit

/-- Payload handed to the desktop notification collaborator (the osascript
display notification call at lines 370-373). -/
structure DesktopNotification where
  title : String
  subtitle : String
  body : String
  deriving DecidableEq

/-- Modelled from the spec: getTextContent comes from utils/ai outside src and
extracts the text content of a message; messages are embedded with plain
string content, so it returns the content field. -/
def getTextContent (m : ChatItem) : String := m.content

/-- Replacement of every newline by a space, the replace of newlines at
line 366. -/
def flattenNewlines (s : String) : String :=
  s.map (fun c => if c = '\n' then ' ' else c)

/-- Escaping of double quotes with a backslash, the replace at line 367. -/
def escapeDoubleQuotes (s : String) : String :=
  String.mk (s.toList.foldr
    (fun c acc => if c = '\"' then '\\' :: c :: acc else c :: acc) [])

/-- Most recent assistant-authored transcript item (lines 362-363). -/
def lastAssistantMessage (items : List ChatItem) : Option ChatItem :=
  (items.filter (fun i => i.role = Role.assistant)).getLast?

/-- Inputs read by one run of the notification effect (lines 346-378):
configuration flag, platform, previous and current loading flags, pending
confirmation prompt, transcript and working directory. -/
structure GateInput where
  notify : Bool
  platformDarwin : Bool
  prevLoading : Bool
  loading : Bool
  confirmationPrompt : Option String
  items : List ChatItem
  cwd : String
  deriving DecidableEq

/-- Notification produced by one run of the effect, read off the source:
nothing when notifications are disabled; otherwise a notification exactly
when the previous run saw loading, this run sees idle, no confirmation is
pending, the transcript is non-empty, the platform is darwin and an
assistant message exists; its body is the flattened, truncated and escaped
preview of the last assistant message. -/
def notifyFire (g : GateInput) : Option DesktopNotification :=
  if g.notify = false then Option.none
  else if g.prevLoading = true ∧ g.loading = false ∧
          g.confirmationPrompt = Option.none ∧ 0 < g.items.length then
    if g.platformDarwin = true then
      match lastAssistantMessage g.items with
      | Option.some last =>
          Option.some
            { title := "Codex CLI",
              subtitle := g.cwd,
              body := escapeDoubleQuotes ((flattenNewlines (getTextContent last)).take 100) }
      | Option.none => Option.none
    else Option.none
  else Option.none

/-- One run of the notification effect: the fired notification (if any)
together with the new value of prevLoadingRef, which every path of the
source sets to the current loading flag. -/
def notifyEffect (g : GateInput) : Option DesktopNotification × Bool :=
  (notifyFire g, g.loading)

/-- Session identity: the dependency values of the engine-creation effect
that can actually change (model, config snapshot, writable-root set; the
requestConfirmation dependency is a stable hook value and is omitted).  The
config snapshot is embedded by a reference id, since the effect compares it
by reference. -/
structure Identity where
  model : String
  configId : Nat
  additionalWritableRoots : List String
  deriving DecidableEq

/-- Live AgentLoop instance: the fresh session id generated at construction,
the identity values it was constructed with, and the mutable approvalPolicy
field that the approval overlay writes in place. -/
structure AgentLoop where
  sessionId : Nat
  model : String
  configId : Nat
  approvalPolicy : ApprovalPolicy
  additionalWritableRoots : List String
  deriving DecidableEq

/-- Identity tuple a live engine is bound to. -/
def AgentLoop.identity (a : AgentLoop) : Identity :=
  { model := a.model, configId := a.configId,
    additionalWritableRoots := a.additionalWritableRoots }

/-- Calls this component makes on an engine instance: cancel (interrupt),
terminate (teardown) and construction of a new instance bound to an
identity. -/
inductive EngineEvent
  | cancel (sessionId : Nat)
  | terminate (sessionId : Nat)
  | construct (sessionId : Nat) (identity : Identity)
  deriving DecidableEq

/-- State of the engine-creation effect (lines 233-318): the agentRef
handle, whether the most recent run of the effect body registered a cleanup
(an early return registers none), whether a confirmation prompt is pending,
the dependency values of the last render, the current approval policy, and
the counter producing fresh session ids. -/
structure SessionState where
  agent : Option AgentLoop
  cleanupArmed : Bool
  pending : Bool
  identity : Identity
  approvalPolicy : ApprovalPolicy
  nextId : Nat
  deriving DecidableEq

/-- Cleanup returned by the effect (lines 309-314): terminate whatever the
ref currently holds, ignoring errors, and clear the ref.  It runs only when
the previous run of the body registered it. -/
def runCleanup (s : SessionState) : SessionState × List EngineEvent :=
  if s.cleanupArmed then
    match s.agent with
    | Option.some e =>
        ({ s with agent := Option.none, cleanupArmed := false },
         [EngineEvent.terminate e.sessionId])
    | Option.none => ({ s with agent := Option.none, cleanupArmed := false }, [])
  else (s, [])

/-- Body of the effect (lines 233-307) run with dependency values ident.
When a confirmation prompt is pending it returns early, registering no
cleanup.  Otherwise it terminates any engine still in the ref, constructs a
new AgentLoop bound to ident and the current approval policy under a fresh
session id, stores it in the ref and registers the cleanup. -/
def runEffectBody (s : SessionState) (ident : Identity) : SessionState × List EngineEvent :=
  if s.pending then
    ({ s with identity := ident, cleanupArmed := false }, [])
  else
    let tearEvents : List EngineEvent :=
      match s.agent with
      | Option.some e => [EngineEvent.terminate e.sessionId]
      | Option.none => []
    ({ s with
        identity := ident,
        agent := Option.some
          { sessionId := s.nextId, model := ident.model, configId := ident.configId,
            approvalPolicy := s.approvalPolicy,
            additionalWritableRoots := ident.additionalWritableRoots },
        cleanupArmed := true,
        nextId := s.nextId + 1 },
     tearEvents ++ [EngineEvent.construct s.nextId ident])

/-- Mounting the component: the effect body runs once with the initial
dependency values and no confirmation pending. -/
def sessionMount (ident : Identity) (policy : ApprovalPolicy) :
    SessionState × List EngineEvent :=
  runEffectBody
    { agent := Option.none, cleanupArmed := false, pending := false,
      identity := ident, approvalPolicy := policy, nextId := 0 }
    ident

/-- External stimuli of the effect: a render with new dependency values, a
change of the pending-confirmation flag (confirmationPrompt is not among the
dependencies, so it triggers no effect run), and unmount. -/
inductive SessionCmd
  | setIdentity (ident : Identity)
  | setPending (b : Bool)
  | unmount

/-- React semantics of the effect.  A setIdentity with unchanged dependency
values does nothing.  With changed values, the registered cleanup of the
previous run executes first, then the body runs with the new values.  A
pending-flag change re-renders without touching the effect.  Unmount runs the
registered cleanup. -/
def sessionStep (s : SessionState) : SessionCmd → SessionState × List EngineEvent
  | SessionCmd.setIdentity ident =>
      if ident = s.identity then (s, [])
      else
        let c := runCleanup s
        let b := runEffectBody c.1 ident
        (b.1, c.2 ++ b.2)
  | SessionCmd.setPending b => ({ s with pending := b }, [])
  | SessionCmd.unmount => runCleanup s

/-- Embedding of the interruptAgent callback (lines 495-515): with no agent
it returns unchanged; with a live agent it requests cancellation, clears the
loading flag synchronously and appends the interruption notice.  Returns the
new loading flag, the new transcript and the engine calls made. -/
def interruptAgent (agent : Option AgentLoop) (loading : Bool)
    (items : List ChatItem) (now : Nat) : Bool × List ChatItem × List EngineEvent :=
  match agent with
  | Option.none => (loading, items, [])
  | Option.some a =>
      (false, items ++ [interruptItem now], [EngineEvent.cancel a.sessionId])

/-- State read and written by the ModelOverlay onSelect handler: the agent
handle, loading flag, selected model, the model field of the persisted
configuration (written through saveConfig), transcript and overlay mode. -/
structure ModelSelectState where
  agent : Option AgentLoop
  loading : Bool
  model : String
  savedConfigModel : String
  items : List ChatItem
  overlayMode : OverlayModeType
  deriving DecidableEq

/-- Embedding of the ModelOverlay onSelect handler (lines 530-559): it
requests cancellation on the live agent when one exists, clears the loading
flag, updates the model, persists it to the configuration, appends the
switch notice and closes the overlay.  The agent ref itself is untouched
here; recreation is the engine-creation effect reacting to the changed model
dependency afterwards. -/
def modelOnSelect (s : ModelSelectState) (newModel : String) (now : Nat) :
    ModelSelectState × List EngineEvent :=
  ({ agent := s.agent,
     loading := false,
     model := newModel,
     savedConfigModel := newModel,
     items := s.items ++ [switchModelItem newModel now],
     overlayMode := OverlayModeType.none },
   match s.agent with
   | Option.some a => [EngineEvent.cancel a.sessionId]
   | Option.none => [])

/-- State read and written by the ApprovalModeOverlay onSelect handler. -/
structure ApprovalSelectState where
  approvalPolicy : ApprovalPolicy
  agent : Option AgentLoop
  items : List ChatItem
  overlayMode : OverlayModeType
  deriving DecidableEq

/-- Embedding of the ApprovalModeOverlay onSelect handler (lines 567-591):
selecting the current policy returns early with no change at all; a
different policy is stored, written onto the live engine in place, a switch
notice is appended and the overlay closes.  No engine call is made on either
path. -/
def approvalOnSelect (s : ApprovalSelectState) (newMode : ApprovalPolicy) (now : Nat) :
    ApprovalSelectState × List EngineEvent :=
  if newMode = s.approvalPolicy then (s, [])
  else
    ({ approvalPolicy := newMode,
       agent := s.agent.map (fun a => { a with approvalPolicy := newMode }),
       items := s.items ++ [switchApprovalItem newMode now],
       overlayMode := OverlayModeType.none }, [])

/-- Actions of this component that can change the overlay mode.  The open
actions are the callbacks handed to TerminalChatInput, which the source
renders only while the mode is none; the exit action is the onExit of each
overlay; the select actions are the ModelOverlay and ApprovalModeOverlay
onSelect handlers, the latter split by whether the chosen policy equals the
current one. -/
inductive OverlayAction
  | openHistory
  | openModel
  | openApproval
  | openHelp
  | openDiff
  | openMCP
  | exitOverlay
  | modelSelect
  | approvalSelectSame
  | approvalSelectOther
  deriving DecidableEq

/-- Overlay-mode transitions read off every setOverlayMode call in the
source.  openDiffOverlay (lines 472-491) appends the diff to the transcript
and then sets the mode to none, so the diff action does not enter the diff
state.  The ApprovalModeOverlay onSelect returns early when the chosen policy
equals the current one, leaving the approval overlay in place.  Actions not
wired in a given mode leave the mode unchanged. -/
def overlayStep (m : OverlayModeType) (a : OverlayAction) : OverlayModeType :=
  match m, a with
  | OverlayModeType.none, OverlayAction.openHistory => OverlayModeType.history
  | OverlayModeType.none, OverlayAction.openModel => OverlayModeType.model
  | OverlayModeType.none, OverlayAction.openApproval => OverlayModeType.approval
  | OverlayModeType.none, OverlayAction.openHelp => OverlayModeType.help
  | OverlayModeType.none, OverlayAction.openDiff => OverlayModeType.none
  | OverlayModeType.none, OverlayAction.openMCP => OverlayModeType.mcp
  | OverlayModeType.history, OverlayAction.exitOverlay => OverlayModeType.none
  | OverlayModeType.model, OverlayAction.exitOverlay => OverlayModeType.none
  | OverlayModeType.model, OverlayAction.modelSelect => OverlayModeType.none
  | OverlayModeType.approval, OverlayAction.exitOverlay => OverlayModeType.none
  | OverlayModeType.approval, OverlayAction.approvalSelectSame => OverlayModeType.approval
  | OverlayModeType.approval, OverlayAction.approvalSelectOther => OverlayModeType.none
  | OverlayModeType.help, OverlayAction.exitOverlay => OverlayModeType.none
  | OverlayModeType.diff, OverlayAction.exitOverlay => OverlayModeType.none
  | OverlayModeType.mcp, OverlayAction.exitOverlay => OverlayModeType.none
  | m, _ => m

/-- Concrete identity used to evaluate the session model. -/
def identA : Identity :=
  { model := "model-a", configId := 0, additionalWritableRoots := [] }

/-- Concrete identity differing from identA in the model component. -/
def identB : Identity :=
  { model := "model-b", configId := 0, additionalWritableRoots := [] }

/-- Concrete agent instance used to evaluate the handlers. -/
def agent0 : AgentLoop :=
  { sessionId := 0, model := "model-a", configId := 0,
    approvalPolicy := ApprovalPolicy.suggest, additionalWritableRoots := [] }

/-- Concrete approval-overlay state used to evaluate its onSelect handler. -/
def apSt : ApprovalSelectState :=
  { approvalPolicy := ApprovalPolicy.suggest, agent := Option.some agent0,
    items := [], overlayMode := OverlayModeType.approval }

/-- Concrete model-overlay state used to evaluate its onSelect handler. -/
def msSt : ModelSelectState :=
  { agent := Option.some agent0, loading := false, model := "model-a",
    savedConfigModel := "model-a", items := [], overlayMode := OverlayModeType.model }

/-- Concrete gate input whose transcript holds only a user item. -/
def gateCE : GateInput :=
  { notify := true, platformDarwin := true, prevLoading := true, loading := false,
    confirmationPrompt := Option.none,
    items := [{ role := Role.user, content := "hi" }], cwd := "cwd" }

/-- Auxiliary: a transcript with a most recent assistant message is
non-empty. -/
theorem lastAssistantMessage_length_pos {items : List ChatItem} {last : ChatItem}
    (h : lastAssistantMessage items = Option.some last) : 0 < items.length := by
  cases items with
  | nil => simp [lastAssistantMessage] at h
  | cons a as => simp

/-- C1: evaluation of the session model at the failing input.  After mount
with identity identA the engine with session id 0 is live and its cleanup is
registered; a confirmation then becomes pending; a subsequent identity change
to identB makes React run the registered cleanup, which terminates the live
engine, before the guarded body runs and skips recreation because the
confirmation is pending.  The step therefore emits a terminate call and no
construct call while pending holds, and leaves no live engine — contradicting
the claim that no teardown occurs while a confirmation is pending. -/
theorem C1_engine_teardown_during_pending_confirmation :
    ((sessionStep (sessionMount identA ApprovalPolicy.suggest).1
        (SessionCmd.setPending true)).1.pending = true)
    ∧ (sessionStep (sessionStep (sessionMount identA ApprovalPolicy.suggest).1
          (SessionCmd.setPending true)).1 (SessionCmd.setIdentity identB)).2
        = [EngineEvent.terminate 0]
    ∧ (sessionStep (sessionStep (sessionMount identA ApprovalPolicy.suggest).1
          (SessionCmd.setPending true)).1 (SessionCmd.setIdentity identB)).1.agent
        = Option.none := by
  refine ⟨rfl, ?_, ?_⟩ <;> decide

/-- Counterexample to C2 as stated: when the second confirmation decision is
itself request-explanation, the bridge returns it to the engine verbatim, so
request-explanation can be returned to the engine. -/
theorem C2_second_round_explain_counterexample :
    (getCommandConfirmation ["rm", "-rf"] "model-a" Option.none
        { decision := ReviewDecision.explain, customDenyMessage := Option.none }
        { decision := ReviewDecision.explain, customDenyMessage := Option.none }
        (GenTextOutcome.ok "it removes files")).1.review
      = ReviewDecision.explain := by
  rfl

/-- C2 amended: a first decision other than request-explanation is returned
immediately with the original patch payload, no explanation call and a single
confirmation round; a first decision of request-explanation causes exactly
one explanation call and a second confirmation round with the explanation
attached, and the second round decision is returned verbatim together with
its custom deny message, the original patch payload and the explanation text
(in particular, a second request-explanation answer is itself returned to the
engine; there is no third round). -/
theorem C2_confirmation_bridge_amended (command : List String) (model : String)
    (applyPatch : Option ApplyPatchCommand) (answer1 answer2 : ConfirmationResult)
    (outcome : GenTextOutcome) :
    (answer1.decision ≠ ReviewDecision.explain →
        getCommandConfirmation command model applyPatch answer1 answer2 outcome
          = ({ review := answer1.decision, customDenyMessage := answer1.customDenyMessage,
               applyPatch := applyPatch, explanation := Option.none },
             [{ commandForDisplay := formatCommandForDisplay command,
                explanation := Option.none }],
             0))
    ∧ (answer1.decision = ReviewDecision.explain →
        getCommandConfirmation command model applyPatch answer1 answer2 outcome
          = ({ review := answer2.decision, customDenyMessage := answer2.customDenyMessage,
               applyPatch := applyPatch,
               explanation := Option.some (generateCommandExplanation command model outcome) },
             [{ commandForDisplay := formatCommandForDisplay command,
                explanation := Option.none },
              { commandForDisplay := formatCommandForDisplay command,
                explanation := Option.some (generateCommandExplanation command model outcome) }],
             1)) := by
  constructor
  · intro h
    simp [getCommandConfirmation, h]
  · intro h
    simp [getCommandConfirmation, h]

/-- Witness for the amended C2 theorem at concrete answers: a deny first
round is returned unchanged with zero explanation calls, and an explain first
round yields exactly one explanation call and the second round decision. -/
theorem C2_confirmation_bridge_witness :
    getCommandConfirmation ["ls"] "model-a" Option.none
        { decision := ReviewDecision.deny, customDenyMessage := Option.some "no" }
        { decision := ReviewDecision.approveOnce, customDenyMessage := Option.none }
        (GenTextOutcome.ok "t")
      = ({ review := ReviewDecision.deny, customDenyMessage := Option.some "no",
           applyPatch := Option.none, explanation := Option.none },
         [{ commandForDisplay := formatCommandForDisplay ["ls"],
            explanation := Option.none }],
         0)
    ∧ getCommandConfirmation ["ls"] "model-a" (Option.some "patch")
        { decision := ReviewDecision.explain, customDenyMessage := Option.none }
        { decision := ReviewDecision.deny, customDenyMessage := Option.some "nope" }
        (GenTextOutcome.ok "t")
      = ({ review := ReviewDecision.deny, customDenyMessage := Option.some "nope",
           applyPatch := Option.some "patch",
           explanation := Option.some (generateCommandExplanation ["ls"] "model-a" (GenTextOutcome.ok "t")) },
         [{ commandForDisplay := formatCommandForDisplay ["ls"],
            explanation := Option.none },
          { commandForDisplay := formatCommandForDisplay ["ls"],
            explanation := Option.some (generateCommandExplanation ["ls"] "model-a" (GenTextOutcome.ok "t")) }],
         1) :=
  ⟨(C2_confirmation_bridge_amended ["ls"] "model-a" Option.none
      { decision := ReviewDecision.deny, customDenyMessage := Option.some "no" }
      { decision := ReviewDecision.approveOnce, customDenyMessage := Option.none }
      (GenTextOutcome.ok "t")).1 (by decide),
   (C2_confirmation_bridge_amended ["ls"] "model-a" (Option.some "patch")
      { decision := ReviewDecision.explain, customDenyMessage := Option.none }
      { decision := ReviewDecision.deny, customDenyMessage := Option.some "nope" }
      (GenTextOutcome.ok "t")).2 rfl⟩

/-- Counterexample to C3 as stated: successful compaction replaces the
transcript with a single assistant summary item, so the old transcript is not
a preserved initial segment of the new one. -/
theorem C3_compaction_counterexample :
    ¬ ∃ t, applyTranscriptOp
        [{ role := Role.user, content := "hello" },
         { role := Role.assistant, content := "hi" }]
        (TranscriptOp.compactResult (Except.ok "summary") 0)
      = [{ role := Role.user, content := "hello" },
         { role := Role.assistant, content := "hi" }] ++ t := by
  rintro ⟨t, h⟩
  simp [applyTranscriptOp, compactSummaryItem] at h

/-- C3 amended: every transcript operation of this component appends (the old
transcript is a preserved initial segment of the new one), with the single
exception of successful context compaction, which replaces the whole
transcript with one assistant item holding the summary; failed compaction
appends a system item describing the failure. -/
theorem C3_transcript_append_amended (items : List ChatItem) (op : TranscriptOp) :
    ((∀ summary now, op ≠ TranscriptOp.compactResult (Except.ok summary) now) →
        ∃ t, applyTranscriptOp items op = items ++ t)
    ∧ (∀ summary now, op = TranscriptOp.compactResult (Except.ok summary) now →
        applyTranscriptOp items op = [compactSummaryItem summary]) := by
  constructor
  · intro h
    cases op with
    | engineOutput item => exact ⟨[item], rfl⟩
    | userInput inputs => exact ⟨inputs, rfl⟩
    | interruptNotice now => exact ⟨[interruptItem now], rfl⟩
    | modelSwitchNotice m now => exact ⟨[switchModelItem m now], rfl⟩
    | approvalSwitchNotice p now => exact ⟨[switchApprovalItem p now], rfl⟩
    | diffDisplay repo diff now => exact ⟨[diffItem repo diff now], rfl⟩
    | compactResult result now =>
        cases result with
        | error err => exact ⟨[compactErrorItem err now], rfl⟩
        | ok summary => exact absurd rfl (h summary now)
  · intro summary now h
    subst h
    rfl

/-- Witness for the amended C3 theorem: an interruption notice appends to the
empty transcript, and a successful compaction yields the singleton summary
transcript. -/
theorem C3_transcript_append_witness :
    (∃ t, applyTranscriptOp [] (TranscriptOp.interruptNotice 3) = [] ++ t)
    ∧ applyTranscriptOp [] (TranscriptOp.compactResult (Except.ok "s") 0)
        = [compactSummaryItem "s"] :=
  ⟨(C3_transcript_append_amended [] (TranscriptOp.interruptNotice 3)).1
      (fun _ _ h => TranscriptOp.noConfusion h),
   (C3_transcript_append_amended [] (TranscriptOp.compactResult (Except.ok "s") 0)).2
      "s" 0 rfl⟩

/-- C4: the explanation operation is a total function, so it always resolves
and never propagates a fault; when text generation fails with a numeric
status, the returned string embeds the classification: 401 gives the
invalid-or-expired-API-key message, 429 the rate-limit message, a status of
at least 500 the service-unavailable message, and any other failure a generic
message. -/
theorem C4_explanation_classification (command : List String) (model : String)
    (message : String) :
    generateCommandExplanation command model
        (GenTextOutcome.errObj message (Option.some 401))
      = "Unable to generate explanation: API key is invalid or expired."
    ∧ generateCommandExplanation command model
        (GenTextOutcome.errObj message (Option.some 429))
      = "Unable to generate explanation: Rate limit exceeded. Please try again later."
    ∧ (∀ s : Int, 500 ≤ s →
        generateCommandExplanation command model
            (GenTextOutcome.errObj message (Option.some s))
          = "Unable to generate explanation: Service is currently unavailable. Please try again later.")
    ∧ (∀ s : Int, s ≠ 401 → s ≠ 429 → s < 500 →
        generateCommandExplanation command model
            (GenTextOutcome.errObj message (Option.some s))
          = "Unable to generate explanation: " ++ message)
    ∧ generateCommandExplanation command model
        (GenTextOutcome.errObj message Option.none)
      = "Unable to generate explanation: " ++ message
    ∧ generateCommandExplanation command model GenTextOutcome.errOther
      = "Unable to generate explanation due to an error." := by
  refine ⟨rfl, rfl, ?_, ?_, rfl, rfl⟩
  · intro s hs
    simp only [generateCommandExplanation]
    rw [if_neg (by omega), if_neg (by omega), if_pos (by omega)]
  · intro s h1 h2 h3
    simp only [generateCommandExplanation]
    rw [if_neg h1, if_neg h2, if_neg (by omega)]

/-- Witness for C4 at concrete statuses 503 and 404. -/
theorem C4_explanation_classification_witness :
    generateCommandExplanation ["ls"] "model-a"
        (GenTextOutcome.errObj "boom" (Option.some 503))
      = "Unable to generate explanation: Service is currently unavailable. Please try again later."
    ∧ generateCommandExplanation ["ls"] "model-a"
        (GenTextOutcome.errObj "boom" (Option.some 404))
      = "Unable to generate explanation: " ++ "boom" :=
  ⟨(C4_explanation_classification ["ls"] "model-a" "boom").2.2.1 503 (by decide),
   (C4_explanation_classification ["ls"] "model-a" "boom").2.2.2.1 404
      (by decide) (by decide) (by decide)⟩

/-- Auxiliary: the timer invariant — outside the busy state the counter is
zero — is preserved by every timer event. -/
theorem timerStep_preserves_zero (s : TimerState) (e : TimerEvent)
    (h : ¬(s.loading = true ∧ s.confirmationPrompt = false) → s.thinkingSeconds = 0) :
    ¬((timerStep s e).loading = true ∧ (timerStep s e).confirmationPrompt = false) →
      (timerStep s e).thinkingSeconds = 0 := by
  cases e with
  | setFlags l p =>
      simp only [timerStep]
      split
      · exact h
      · intro _
        rfl
  | secondElapsed =>
      simp only [timerStep]
      split
      · rename_i hcond
        intro hc
        exact absurd hcond hc
      · exact h

/-- Auxiliary: the timer invariant holds after folding any event sequence
from a state satisfying it. -/
theorem timerFold_zero (evs : List TimerEvent) (s : TimerState)
    (h : ¬(s.loading = true ∧ s.confirmationPrompt = false) → s.thinkingSeconds = 0) :
    ¬((evs.foldl timerStep s).loading = true ∧
        (evs.foldl timerStep s).confirmationPrompt = false) →
      (evs.foldl timerStep s).thinkingSeconds = 0 := by
  induction evs generalizing s with
  | nil => exact h
  | cons e rest ih => exact ih (timerStep s e) (timerStep_preserves_zero s e h)

/-- C5: after any reachable history, the thinking-seconds counter is zero
whenever loading is false or a confirmation prompt is pending; any render
that changes the flag pair resets the counter to zero (in particular on
entering the busy state); and while loading holds with no pending
confirmation, each elapsed second increments the counter by exactly one. -/
theorem C5_thinking_timer (evs : List TimerEvent) :
    (((timerRun evs).loading = false ∨ (timerRun evs).confirmationPrompt = true) →
        (timerRun evs).thinkingSeconds = 0)
    ∧ (∀ l p : Bool,
        ¬(l = (timerRun evs).loading ∧ p = (timerRun evs).confirmationPrompt) →
        (timerStep (timerRun evs) (TimerEvent.setFlags l p)).thinkingSeconds = 0)
    ∧ ((timerRun evs).loading = true → (timerRun evs).confirmationPrompt = false →
        (timerStep (timerRun evs) TimerEvent.secondElapsed).thinkingSeconds
          = (timerRun evs).thinkingSeconds + 1) := by
  refine ⟨?_, ?_, ?_⟩
  · intro hzero
    simp only [timerRun] at *
    apply timerFold_zero evs timerInit (fun _ => rfl)
    intro hbusy
    rcases hzero with h | h
    · rw [h] at hbusy
      exact Bool.noConfusion hbusy.1
    · rw [h] at hbusy
      exact Bool.noConfusion hbusy.2
  · intro l p hne
    simp only [timerStep]
    rw [if_neg hne]
  · intro h1 h2
    simp only [timerStep]
    rw [if_pos ⟨h1, h2⟩]

/-- Witness for C5: after entering the busy state, ticking twice and leaving
it, the counter is zero; a flags change from the final state also resets the
counter. -/
theorem C5_thinking_timer_witness :
    (timerRun [TimerEvent.setFlags true false, TimerEvent.secondElapsed,
               TimerEvent.secondElapsed, TimerEvent.setFlags false false]).thinkingSeconds = 0
    ∧ (timerStep (timerRun [TimerEvent.setFlags true false, TimerEvent.secondElapsed,
               TimerEvent.secondElapsed, TimerEvent.setFlags false false])
        (TimerEvent.setFlags true false)).thinkingSeconds = 0 :=
  ⟨(C5_thinking_timer [TimerEvent.setFlags true false, TimerEvent.secondElapsed,
      TimerEvent.secondElapsed, TimerEvent.setFlags false false]).1 (Or.inl (by decide)),
   (C5_thinking_timer [TimerEvent.setFlags true false, TimerEvent.secondElapsed,
      TimerEvent.secondElapsed, TimerEvent.setFlags false false]).2.1 true false (by decide)⟩

/-- Counterexample to C6 as stated: a busy-to-idle transition with
notifications enabled on the supported platform, no pending confirmation and
a non-empty transcript fires no notification when no item is
assistant-authored, although the claim requires exactly one firing. -/
theorem C6_gate_counterexample :
    (gateCE.notify = true ∧ gateCE.platformDarwin = true ∧ gateCE.prevLoading = true
      ∧ gateCE.loading = false ∧ gateCE.confirmationPrompt = Option.none
      ∧ 0 < gateCE.items.length)
    ∧ (notifyEffect gateCE).1 = Option.none := by
  refine ⟨⟨rfl, rfl, rfl, rfl, rfl, by decide⟩, by decide⟩

/-- C6 amended: one run of the notification effect hands off exactly one
notification precisely when notifications are enabled, the platform is the
supported desktop platform, the previous run saw loading and this run sees
idle, no confirmation is pending, and the transcript holds at least one
assistant-authored item; the notification carries the fixed title, the
working-directory subtitle, and as body the text of the most recent
assistant item with newlines flattened, truncated to 100 characters and
double quotes escaped.  In every other situation the run fires nothing, and
every run stores the current loading flag as the new previous value, so the
gate cannot fire twice without an intervening return to the busy state. -/
theorem C6_notification_gate_amended (g : GateInput) (last : ChatItem) :
    (notifyEffect g).2 = g.loading
    ∧ (g.notify = true → g.platformDarwin = true → g.prevLoading = true →
        g.loading = false → g.confirmationPrompt = Option.none →
        lastAssistantMessage g.items = Option.some last →
        (notifyEffect g).1 = Option.some
          { title := "Codex CLI", subtitle := g.cwd,
            body := escapeDoubleQuotes ((flattenNewlines (getTextContent last)).take 100) })
    ∧ ((g.notify = false ∨ g.platformDarwin = false ∨ g.prevLoading = false ∨
        g.loading = true ∨ g.confirmationPrompt ≠ Option.none ∨
        lastAssistantMessage g.items = Option.none) →
        (notifyEffect g).1 = Option.none) := by
  refine ⟨rfl, ?_, ?_⟩
  · intro hn hd hp hl hc hlast
    have hlen : 0 < g.items.length := lastAssistantMessage_length_pos hlast
    simp [notifyEffect, notifyFire, hn, hd, hp, hl, hc, hlast, hlen]
  · intro hcase
    rcases hcase with h | h | h | h | h | h <;>
      simp [notifyEffect, notifyFire, h]

/-- Witness for the amended C6 theorem: a busy-to-idle run over a transcript
ending in an assistant item fires the escaped, truncated preview, and a run
with loading still true fires nothing. -/
theorem C6_notification_gate_witness :
    (notifyEffect
      { notify := true, platformDarwin := true, prevLoading := true, loading := false,
        confirmationPrompt := Option.none,
        items := [{ role := Role.assistant, content := "done" }], cwd := "cwd" }).1
      = Option.some
        { title := "Codex CLI", subtitle := "cwd",
          body := escapeDoubleQuotes ((flattenNewlines
            (getTextContent { role := Role.assistant, content := "done" })).take 100) }
    ∧ (notifyEffect
      { notify := true, platformDarwin := true, prevLoading := true, loading := true,
        confirmationPrompt := Option.none,
        items := [{ role := Role.assistant, content := "done" }], cwd := "cwd" }).1
      = Option.none :=
  ⟨(C6_notification_gate_amended
      { notify := true, platformDarwin := true, prevLoading := true, loading := false,
        confirmationPrompt := Option.none,
        items := [{ role := Role.assistant, content := "done" }], cwd := "cwd" }
      { role := Role.assistant, content := "done" }).2.1
      rfl rfl rfl rfl rfl (by decide),
   (C6_notification_gate_amended
      { notify := true, platformDarwin := true, prevLoading := true, loading := true,
        confirmationPrompt := Option.none,
        items := [{ role := Role.assistant, content := "done" }], cwd := "cwd" }
      { role := Role.assistant, content := "done" }).2.2
      (Or.inr (Or.inr (Or.inr (Or.inl rfl))))⟩

/-- C7: when interrupt is invoked while an engine exists, cancellation is
requested on that engine, the loading flag is cleared synchronously, a
system item recording the interruption is appended, and an engine output
item arriving afterwards is still appended after the interruption notice. -/
theorem C7_interrupt_behavior (agent : Option AgentLoop) (a : AgentLoop)
    (loading : Bool) (items : List ChatItem) (now : Nat) (lateItem : ChatItem)
    (h : agent = Option.some a) :
    interruptAgent agent loading items now
        = (false, items ++ [interruptItem now], [EngineEvent.cancel a.sessionId])
    ∧ onItem (items ++ [interruptItem now]) lateItem
        = items ++ [interruptItem now] ++ [lateItem] := by
  subst h
  exact ⟨rfl, rfl⟩

/-- Witness for C7 at a concrete agent, transcript and late item. -/
theorem C7_interrupt_behavior_witness :
    interruptAgent (Option.some agent0) true [] 5
        = (false, [] ++ [interruptItem 5], [EngineEvent.cancel agent0.sessionId])
    ∧ onItem ([] ++ [interruptItem 5]) { role := Role.assistant, content := "late" }
        = [] ++ [interruptItem 5] ++ [{ role := Role.assistant, content := "late" }] :=
  C7_interrupt_behavior (Option.some agent0) agent0 true [] 5
    { role := Role.assistant, content := "late" } rfl

/-- C8: selecting the current approval policy changes nothing at all; a
different policy is stored, written onto the live engine in place (same
session id), a switch notice is appended and the overlay closes, while no
engine call is made, so the engine is neither torn down nor recreated and
in-flight work is not interrupted. -/
theorem C8_approval_policy_in_place (s : ApprovalSelectState)
    (newMode : ApprovalPolicy) (now : Nat) :
    (newMode = s.approvalPolicy → approvalOnSelect s newMode now = (s, []))
    ∧ (newMode ≠ s.approvalPolicy →
        (approvalOnSelect s newMode now).2 = []
        ∧ (approvalOnSelect s newMode now).1.approvalPolicy = newMode
        ∧ (approvalOnSelect s newMode now).1.agent
            = s.agent.map (fun a => { a with approvalPolicy := newMode })
        ∧ (approvalOnSelect s newMode now).1.agent.map (fun a => a.sessionId)
            = s.agent.map (fun a => a.sessionId)
        ∧ (approvalOnSelect s newMode now).1.items
            = s.items ++ [switchApprovalItem newMode now]
        ∧ (approvalOnSelect s newMode now).1.overlayMode = OverlayModeType.none) := by
  constructor
  · intro h
    simp [approvalOnSelect, h]
  · intro h
    refine ⟨by simp [approvalOnSelect, if_neg h], by simp [approvalOnSelect, if_neg h],
            by simp [approvalOnSelect, if_neg h], ?_,
            by simp [approvalOnSelect, if_neg h], by simp [approvalOnSelect, if_neg h]⟩
    cases hA : s.agent <;> simp [approvalOnSelect, if_neg h, hA]

/-- Witness for C8 at a concrete state: same-policy selection is the
identity, and a different policy keeps the session id of the live engine. -/
theorem C8_approval_policy_in_place_witness :
    approvalOnSelect apSt ApprovalPolicy.suggest 0 = (apSt, [])
    ∧ (approvalOnSelect apSt ApprovalPolicy.autoEdit 0).2 = []
    ∧ (approvalOnSelect apSt ApprovalPolicy.autoEdit 0).1.agent.map (fun a => a.sessionId)
        = apSt.agent.map (fun a => a.sessionId) :=
  ⟨(C8_approval_policy_in_place apSt ApprovalPolicy.suggest 0).1 rfl,
   ((C8_approval_policy_in_place apSt ApprovalPolicy.autoEdit 0).2 (by decide)).1,
   ((C8_approval_policy_in_place apSt ApprovalPolicy.autoEdit 0).2 (by decide)).2.2.2.1⟩

/-- Counterexample to C9 as stated: the diff open action leaves the mode at
none instead of entering the diff state, and selecting the already-active
approval policy keeps the machine in the approval state, a non-none state
reachable in one transition. -/
theorem C9_overlay_counterexample :
    overlayStep OverlayModeType.none OverlayAction.openDiff = OverlayModeType.none
    ∧ OverlayModeType.none ≠ OverlayModeType.diff
    ∧ overlayStep OverlayModeType.approval OverlayAction.approvalSelectSame
        = OverlayModeType.approval
    ∧ OverlayModeType.approval ≠ OverlayModeType.none := by
  decide

/-- C9 amended: the overlay mode is always one of the seven enumerated
values; from any non-none value one transition reaches only none or leaves
the mode unchanged (selecting the already-active approval policy leaves the
approval overlay open, and actions not wired in a mode do nothing); from
none the open actions for history, model, approval, help and mcp enter the
corresponding state, while the diff action appends the diff to the
transcript and leaves the mode at none. -/
theorem C9_overlay_machine_amended (m : OverlayModeType) (a : OverlayAction) :
    (m = OverlayModeType.none ∨ m = OverlayModeType.history ∨ m = OverlayModeType.model
      ∨ m = OverlayModeType.approval ∨ m = OverlayModeType.help ∨ m = OverlayModeType.diff
      ∨ m = OverlayModeType.mcp)
    ∧ (m ≠ OverlayModeType.none →
        overlayStep m a = OverlayModeType.none ∨ overlayStep m a = m)
    ∧ overlayStep OverlayModeType.none OverlayAction.openHistory = OverlayModeType.history
    ∧ overlayStep OverlayModeType.none OverlayAction.openModel = OverlayModeType.model
    ∧ overlayStep OverlayModeType.none OverlayAction.openApproval = OverlayModeType.approval
    ∧ overlayStep OverlayModeType.none OverlayAction.openHelp = OverlayModeType.help
    ∧ overlayStep OverlayModeType.none OverlayAction.openMCP = OverlayModeType.mcp
    ∧ overlayStep OverlayModeType.none OverlayAction.openDiff = OverlayModeType.none := by
  cases m <;> cases a <;> decide

/-- Witness for the amended C9 theorem: exiting the history overlay reaches
none or stays in place. -/
theorem C9_overlay_machine_witness :
    overlayStep OverlayModeType.history OverlayAction.exitOverlay = OverlayModeType.none
    ∨ overlayStep OverlayModeType.history OverlayAction.exitOverlay
        = OverlayModeType.history :=
  (C9_overlay_machine_amended OverlayModeType.history OverlayAction.exitOverlay).2.1
    (by decide)

/-- C10: selecting a new model requests cancellation on the current engine
and clears the loading flag synchronously (even when no work is in flight,
since no condition on loading guards the handler), updates the model,
persists it to the configuration, appends the switch notice and closes the
overlay, leaving the agent handle itself untouched. -/
theorem C10_model_select (s : ModelSelectState) (a : AgentLoop)
    (newModel : String) (now : Nat) (h : s.agent = Option.some a) :
    (modelOnSelect s newModel now).2 = [EngineEvent.cancel a.sessionId]
    ∧ (modelOnSelect s newModel now).1.loading = false
    ∧ (modelOnSelect s newModel now).1.model = newModel
    ∧ (modelOnSelect s newModel now).1.savedConfigModel = newModel
    ∧ (modelOnSelect s newModel now).1.items = s.items ++ [switchModelItem newModel now]
    ∧ (modelOnSelect s newModel now).1.overlayMode = OverlayModeType.none
    ∧ (modelOnSelect s newModel now).1.agent = s.agent := by
  simp [modelOnSelect, h]

/-- Witness for C10 at a concrete idle state, showing the cancel request is
made even though no work is in flight. -/
theorem C10_model_select_witness :
    (modelOnSelect msSt "model-b" 7).2 = [EngineEvent.cancel agent0.sessionId]
    ∧ (modelOnSelect msSt "model-b" 7).1.loading = false
    ∧ (modelOnSelect msSt "model-b" 7).1.model = "model-b"
    ∧ (modelOnSelect msSt "model-b" 7).1.savedConfigModel = "model-b"
    ∧ (modelOnSelect msSt "model-b" 7).1.items = msSt.items ++ [switchModelItem "model-b" 7]
    ∧ (modelOnSelect msSt "model-b" 7).1.overlayMode = OverlayModeType.none
    ∧ (modelOnSelect msSt "model-b" 7).1.agent = msSt.agent :=
  C10_model_select msSt agent0 "model-b" 7 rfl

end Codex
